import Mathlib

/-!
# Verification of the swift-scrolls collection pipeline

A shallow embedding, over `List Char` text, of the collection / normalization /
aggregation / splitting logic of the `swift-scrolls` repository
(`src/send_swift_scroll.py`, `src/collector_site.py`, `src/collector_tumblr.py`,
`src/collector_reddit.py`, `src/collector_youtube.py`), together with theorems
settling the specification's claims about it.

Python strings are modelled as `List Char` (one element per Unicode code point,
matching Python's `len`/slicing semantics).  External effects (HTTP fetches, the
Reddit/YouTube API clients, BeautifulSoup parsing) are modelled as oracle
function arguments: a collector receives the already-parsed document structure
or an error, exactly the two outcomes its `try`/`except` distinguishes.
-/

/-- Text is a sequence of Unicode code points, as in Python. -/
abbrev Str := List Char

/-- Turn a Lean string literal into the `Str` model. -/
def str (s : String) : Str := s.data

/-- Python's whitespace predicate (`str.isspace` on a single character), which is
also the character class removed by `str.strip()` with no arguments:
TAB..CR (0x09–0x0d), space, FS/GS/RS/US (0x1c–0x1f), NEL (0x85), NBSP (0xa0),
and the Unicode space separators. -/
def pySpace (c : Char) : Bool :=
  (0x09 ≤ c.toNat && c.toNat ≤ 0x0d) || c = ' ' ||
  (0x1c ≤ c.toNat && c.toNat ≤ 0x1f) || c.toNat = 0x85 || c.toNat = 0xa0 ||
  c.toNat = 0x1680 || (0x2000 ≤ c.toNat && c.toNat ≤ 0x200a) ||
  c.toNat = 0x2028 || c.toNat = 0x2029 || c.toNat = 0x202f ||
  c.toNat = 0x205f || c.toNat = 0x3000

/-- Remove the trailing run of Python whitespace (`str.rstrip()`). -/
def stripEnd : Str → Str
  | [] => []
  | c :: rest =>
    let r := stripEnd rest
    if r = [] && pySpace c then [] else c :: r

/-- Python `str.strip()`: remove leading and trailing whitespace. -/
def pyStrip (l : Str) : Str := stripEnd (l.dropWhile pySpace)

/-- Python `sep.join(parts)`. -/
def joinWith (sep : Str) : List Str → Str
  | [] => []
  | [x] => x
  | x :: y :: rest => x ++ sep ++ joinWith sep (y :: rest)

/-- The fixed ellipsis marker appended by every truncation site (`"..."`). -/
def ellipsisMarker : Str := str "..."

/-- The truncation pattern used at every snippet site of the repository:
`if len(text) > cap: text = text[:cap] + "..."`. -/
def truncate (cap : Nat) (l : Str) : Str :=
  if l.length > cap then l.take cap ++ ellipsisMarker else l

/-- Python `str.lower()` (per-character lowering; the repository only ever
compares against the ASCII marker `"subject:"`). -/
def pyLower (l : Str) : Str := l.map Char.toLower

/-- Python's line-boundary character class for `str.splitlines`:
LF, CR, VT, FF, FS, GS, RS, NEL, LINE SEPARATOR, PARAGRAPH SEPARATOR
(CR LF is treated as a single boundary by `pySplitlines` below). -/
def lineBoundary (c : Char) : Bool :=
  c = '\n' || c = '\r' || c.toNat = 0x0b || c.toNat = 0x0c ||
  c.toNat = 0x1c || c.toNat = 0x1d || c.toNat = 0x1e || c.toNat = 0x85 ||
  c.toNat = 0x2028 || c.toNat = 0x2029

/-- Collapse each CR LF pair into a single LF, the one two-character line
boundary `str.splitlines` recognizes; lone CRs are left for the
single-character boundary scan. -/
def fixCRLF : Str → Str
  | [] => []
  | c :: rest =>
    if c = '\r' && rest.head? = some '\n' then fixCRLF rest
    else c :: fixCRLF rest

/-- Worker for `pySplitlines` over CRLF-normalized text: `cur` is the line
accumulated so far.  A boundary at the very end of the input does not open a
trailing empty line. -/
def linesAux (cur : Str) : Str → List Str
  | [] => [cur]
  | c :: rest =>
    if lineBoundary c then
      cur :: (if rest = [] then [] else linesAux [] rest)
    else linesAux (cur ++ [c]) rest

/-- Python `str.splitlines()`. -/
def pySplitlines : Str → List Str
  | [] => []
  | c :: rest => linesAux [] (fixCRLF (c :: rest))

/-- Everything after the first colon of a line: Python
`line.split(":", 1)[1]` (this index is only reached in the source under the
guard that the lowered line begins with `"subject:"`, so a colon exists). -/
def afterFirstColon (l : Str) : Str := (l.dropWhile (fun c => !(c = ':'))).drop 1

/-- The marker token scanned for at the start of a line. -/
def subjectMarker : Str := str "subject:"

/-- The fixed fallback subject used when no marker line is found. -/
def defaultSubject : Str := str "✨ Your Weekly Swift Scroll ✨"

/-- Python `line.lower().startswith("subject:")`. -/
def startsWithSubject (line : Str) : Bool := subjectMarker.isPrefixOf (pyLower line)

/-- The `for i, line in enumerate(lines): ... break / else` loop of
`split_subject_and_body`: returns the raw subject remainder of the first
marker line together with the lines strictly after it, or `none` when the
loop falls through to its `else` arm. -/
def findSubjectLoop : List Str → Option (Str × List Str)
  | [] => none
  | line :: rest =>
    if startsWithSubject line then some (afterFirstColon line, rest)
    else findSubjectLoop rest

/-- Function `send_swift_scroll.split_subject_and_body`: strip the full text, split it
into lines, scan for the first `Subject:` line; on a hit the subject is the
trimmed remainder after the first colon and the body is the remaining lines
re-joined and trimmed; otherwise the default subject and all lines re-joined
and trimmed. -/
def split_subject_and_body (full_text : Str) : Str × Str :=
  let lines := pySplitlines (pyStrip full_text)
  match findSubjectLoop lines with
  | some (rawSubject, bodyLines) =>
      (pyStrip rawSubject, pyStrip (joinWith (str "\n") bodyLines))
  | none => (defaultSubject, pyStrip (joinWith (str "\n") lines))

namespace CollectorSite

/-- The output of BeautifulSoup parsing as consumed by
`collector_site.extract_snippets_from_html`: the `get_text(separator=" ",
strip=True)` texts of the `h1`/`h2`/`h3` elements and of the `p` elements,
in document order.  Parsing itself is the external `bs4` library. -/
structure SiteDoc where
  headings : List Str
  paragraphs : List Str

/-- One `"[{label} HEADING] {text}"` snippet. -/
def headingSnippet (label text : Str) : Str := str "[" ++ label ++ str " HEADING] " ++ text

/-- One `"[{label} TEXT] {text}"` snippet. -/
def textSnippet (label text : Str) : Str := str "[" ++ label ++ str " TEXT] " ++ text

/-- The heading loop of `collector_site.extract_snippets_from_html`: keep
stripped texts of length > 5, truncating at 200; no count cap. -/
def siteHeadings (label : Str) : List Str → List Str
  | [] => []
  | h :: rest =>
    let text := pyStrip h
    if !(text = []) && text.length > 5 then
      headingSnippet label (truncate 200 text) :: siteHeadings label rest
    else siteHeadings label rest

/-- The paragraph loop of `collector_site.extract_snippets_from_html`:
`snippets` (the accumulator, already holding the heading snippets) grows by
one `TEXT` snippet per stripped paragraph of length ≥ 40 (truncated at 400),
and the loop breaks as soon as `len(snippets) > 40` after an append. -/
def siteParas (label : Str) (snippets : List Str) : List Str → List Str
  | [] => snippets
  | p :: rest =>
    let text := pyStrip p
    if text = [] || text.length < 40 then siteParas label snippets rest
    else
      let snippets2 := snippets ++ [textSnippet label (truncate 400 text)]
      if snippets2.length > 40 then snippets2 else siteParas label snippets2 rest

/-- Function `collector_site.extract_snippets_from_html` (HEADING_PARAGRAPH mode). -/
def extract_snippets_from_html (doc : SiteDoc) (label : Str) : List Str :=
  siteParas label (siteHeadings label doc.headings) doc.paragraphs

/-- The `"[{label} ERROR] Could not fetch {url}: {e}"` snippet. -/
def errorSnippet (label url e : Str) : Str :=
  str "[" ++ label ++ str " ERROR] Could not fetch " ++ url ++ str ": " ++ e

/-- The `taylor_site` block of `collect_official_site_snippets`: skipped when
the config value is missing or falsy (empty), otherwise the fetched page's
snippets, or the single error snippet when the fetch raises.  `fetchPage`
stands for `fetch_page` composed with BeautifulSoup parsing; its `.error`
case is the caught exception rendered as text. -/
def taylorSitePart (taylor_site : Option Str) (fetchPage : Str → Except Str SiteDoc) : List Str :=
  match taylor_site with
  | none => []
  | some url =>
    if url = [] then []
    else
      match fetchPage url with
      | .ok doc => extract_snippets_from_html doc (str "OFFICIAL SITE")
      | .error e => [errorSnippet (str "OFFICIAL SITE") url e]

/-- The `showgirl_site` block of `collect_official_site_snippets`. -/
def showgirlSitePart (showgirl_site : Option Str) (fetchPage : Str → Except Str SiteDoc) : List Str :=
  match showgirl_site with
  | none => []
  | some url =>
    if url = [] then []
    else
      match fetchPage url with
      | .ok doc => extract_snippets_from_html doc (str "SHOWGIRL")
      | .error e => [errorSnippet (str "SHOWGIRL") url e]

/-- Function `collector_site.collect_official_site_snippets`: both URL blocks in order,
joined with a blank line. -/
def collect_official_site_snippets (taylor_site showgirl_site : Option Str)
    (fetchPage : Str → Except Str SiteDoc) : Str :=
  joinWith (str "\n\n") (taylorSitePart taylor_site fetchPage ++ showgirlSitePart showgirl_site fetchPage)

end CollectorSite

namespace CollectorTumblr

/-- The output of BeautifulSoup parsing as consumed by
`collector_tumblr.extract_snippets_from_html`: the texts of the
`article`/`section`/`div` elements whose class contains `"post"`
(case-insensitively), and the texts of the `p` elements, in document order. -/
structure TumblrDoc where
  postContainers : List Str
  paragraphs : List Str

/-- One `"[{label} POST] {text}"` snippet. -/
def postSnippet (label text : Str) : Str := str "[" ++ label ++ str " POST] " ++ text

/-- One `"[{label} TEXT] {text}"` snippet. -/
def textSnippet (label text : Str) : Str := str "[" ++ label ++ str " TEXT] " ++ text

/-- The post-container loop of `collector_tumblr.extract_snippets_from_html`:
stripped texts of length ≥ 40 become `POST` snippets (truncated at 500);
the loop breaks as soon as `len(snippets) > 30` after an append. -/
def tumblrPosts (label : Str) (snippets : List Str) : List Str → List Str
  | [] => snippets
  | c :: rest =>
    let text := pyStrip c
    if text = [] || text.length < 40 then tumblrPosts label snippets rest
    else
      let snippets2 := snippets ++ [postSnippet label (truncate 500 text)]
      if snippets2.length > 30 then snippets2 else tumblrPosts label snippets2 rest

/-- The paragraph fallback loop of
`collector_tumblr.extract_snippets_from_html`: stripped texts of length ≥ 40
become `TEXT` snippets (truncated at 400); the loop breaks as soon as the
total `len(snippets)` (container snippets included) exceeds 30 after an
append. -/
def tumblrParas (label : Str) (snippets : List Str) : List Str → List Str
  | [] => snippets
  | p :: rest =>
    let text := pyStrip p
    if text = [] || text.length < 40 then tumblrParas label snippets rest
    else
      let snippets2 := snippets ++ [textSnippet label (truncate 400 text)]
      if snippets2.length > 30 then snippets2 else tumblrParas label snippets2 rest

/-- Function `collector_tumblr.extract_snippets_from_html` (CONTAINER_FALLBACK mode):
the container loop first, then — whenever fewer than 10 snippets were
produced — additionally the paragraph fallback loop. -/
def extract_snippets_from_html (doc : TumblrDoc) (label : Str) : List Str :=
  let snippets := tumblrPosts label [] doc.postContainers
  if snippets.length < 10 then tumblrParas label snippets doc.paragraphs else snippets

/-- The `"[TUMBLR ERROR] Could not fetch {url}: {e}"` snippet. -/
def errorSnippet (url e : Str) : Str :=
  str "[TUMBLR ERROR] Could not fetch " ++ url ++ str ": " ++ e

/-- The snippet batch of `collector_tumblr.collect_tumblr_snippets`:
empty when `tumblr_url` is missing/falsy; otherwise the fetched page's
snippets, or the single error snippet when the fetch raises. -/
def tumblrBatch (tumblr_url : Option Str) (fetchPage : Str → Except Str TumblrDoc) : List Str :=
  match tumblr_url with
  | none => []
  | some url =>
    if url = [] then []
    else
      match fetchPage url with
      | .ok doc => extract_snippets_from_html doc (str "TUMBLR")
      | .error e => [errorSnippet url e]

/-- Function `collector_tumblr.collect_tumblr_snippets`: the batch joined with blank
lines (`""` when unconfigured). -/
def collect_tumblr_snippets (tumblr_url : Option Str)
    (fetchPage : Str → Except Str TumblrDoc) : Str :=
  joinWith (str "\n\n") (tumblrBatch tumblr_url fetchPage)

end CollectorTumblr

namespace CollectorReddit

/-- One Reddit submission as read by `collect_reddit_snippets`: title,
selftext, and the top-level comment bodies after
`comments.replace_more(limit=0)` flattened the placeholder nodes, in the
order the API returns them.  A missing field arrives as empty text. -/
structure RedditPost where
  title : Str
  selftext : Str
  comments : List Str

/-- The snippets one post contributes: the `"[POST in r/{sub}]"` snippet
combining the title and the stripped, 400-truncated selftext, followed by up
to `max_comments_per_post` `"[COMMENT in r/{sub}]"` snippets (each body
stripped and 400-truncated). -/
def redditPostSnips (sub : Str) (max_comments_per_post : Nat) (p : RedditPost) : List Str :=
  (str "[POST in r/" ++ sub ++ str "] " ++ p.title ++ str "\n"
      ++ truncate 400 (pyStrip p.selftext)) ::
    (p.comments.take max_comments_per_post).map
      (fun c => str "[COMMENT in r/" ++ sub ++ str "] " ++ truncate 400 (pyStrip c))

/-- Function `collector_reddit.collect_reddit_snippets`.  Here `top sub limit` is the
oracle for `reddit.subreddit(sub).top(time_filter="week", limit=limit)`; the
client construction itself makes no request to the source.  Empty
`subreddits` returns `""` before any oracle use; otherwise `max_posts` is
divided evenly (floor, minimum 1) and every post's snippets are
concatenated across subreddits, joined with blank lines. -/
def collect_reddit_snippets (top : Str → Nat → List RedditPost)
    (subreddits : List Str) (max_posts max_comments_per_post : Nat) : Str :=
  if subreddits = [] then []
  else
    let posts_per_sub := max 1 (max_posts / subreddits.length)
    joinWith (str "\n\n")
      (subreddits.flatMap (fun sub =>
        (top sub posts_per_sub).flatMap (redditPostSnips sub max_comments_per_post)))

end CollectorReddit

namespace CollectorYoutube

/-- The response of the `commentThreads` endpoint as read by
`fetch_video_comments`: the HTTP status code and the
`snippet.topLevelComment.snippet.textDisplay` field of each item (missing
fields arrive as empty text). -/
structure CommentsResp where
  status : Nat
  items : List Str

/-- Function `collector_youtube.fetch_video_comments`.  Here
`comments vid maxResults` is the oracle for the `requests.get` call on the
`commentThreads` endpoint: `.error e` is an exception raised by the call
(timeout, network error) — the source has no `try`/`except` around it, so
the exception propagates out of this function — while `.ok resp` is a
delivered HTTP response.  A delivered non-200 status degrades to the empty
comment list; otherwise each non-empty stripped comment text is kept,
truncated at 400. -/
def fetch_video_comments (comments : Str → Nat → Except Str CommentsResp)
    (video_id : Str) (max_results : Nat) : Except Str (List Str) :=
  match comments video_id max_results with
  | .error e => .error e
  | .ok resp =>
    if resp.status ≠ 200 then .ok []
    else
      .ok (resp.items.filterMap (fun raw =>
        let text := pyStrip raw
        if text = [] then none else some (truncate 400 text)))

/-- One search result item as read by `collect_youtube_snippets`: its
optional `id.videoId` and its `snippet.title` / `snippet.description`. -/
structure YtVideo where
  videoId : Option Str
  title : Str
  description : Str

/-- The `"[YOUTUBE VIDEO] {title}\n{description}"` snippet of one video
(title and description stripped, description truncated at 500). -/
def videoSnippet (item : YtVideo) : Str :=
  str "[YOUTUBE VIDEO] " ++ pyStrip item.title ++ str "\n" ++ truncate 500 (pyStrip item.description)

/-- The loop body of `collect_youtube_snippets` for one search result item:
items without a resolvable `videoId` are skipped (`continue`); otherwise the
video snippet followed by one `"[YOUTUBE COMMENT]"` snippet per fetched
comment.  An exception raised by the comment fetch propagates — the snippet
already appended for this video is discarded with the rest of the run. -/
def videoPart (comments : Str → Nat → Except Str CommentsResp) (max_comments : Nat)
    (item : YtVideo) : Except Str (List Str) :=
  match item.videoId with
  | none => .ok []
  | some vid =>
    if vid = [] then .ok []
    else
      match fetch_video_comments comments vid max_comments with
      | .error e => .error e
      | .ok cs =>
        .ok (videoSnippet item :: cs.map (fun c => str "[YOUTUBE COMMENT] " ++ c))

/-- The ordered snippet batch of `collect_youtube_snippets` over the fetched
search result items: the loop appends each video's part in order, and an
uncaught exception in any iteration aborts the whole run. -/
def youtubeBatch (comments : Str → Nat → Except Str CommentsResp) (max_comments : Nat) :
    List YtVideo → Except Str (List Str)
  | [] => .ok []
  | item :: rest =>
    match videoPart comments max_comments item with
    | .error e => .error e
    | .ok part =>
      match youtubeBatch comments max_comments rest with
      | .error e => .error e
      | .ok more => .ok (part ++ more)

/-- Function `collector_youtube.collect_youtube_snippets`.  Here
`videos channel max` is the oracle for `fetch_channel_videos` (whose
`requests.get` / `raise_for_status` can likewise raise); a missing or empty
`youtube_channel_id` returns `""` before any oracle use, and an uncaught
exception from the video search or from any video's comment fetch
propagates out of the collector. -/
def collect_youtube_snippets (videos : Str → Nat → Except Str (List YtVideo))
    (comments : Str → Nat → Except Str CommentsResp) (channel_id : Option Str)
    (max_videos max_comments : Nat) : Except Str Str :=
  match channel_id with
  | none => .ok []
  | some c =>
    if c = [] then .ok []
    else
      match videos c max_videos with
      | .error e => .error e
      | .ok items =>
        match youtubeBatch comments max_comments items with
        | .error e => .error e
        | .ok parts => .ok (joinWith (str "\n\n") parts)

end CollectorYoutube

/-- The four conditional section parts of
`send_swift_scroll.build_fandom_data`, in collector invocation order: each
collector output that is non-empty after `strip()` contributes its fixed
header line plus the output. -/
def fandomParts (reddit_data youtube_data official_data tumblr_data : Str) : List Str :=
  (if pyStrip reddit_data ≠ [] then [str "=== REDDIT SNIPPETS ===\n" ++ reddit_data] else []) ++
  (if pyStrip youtube_data ≠ [] then [str "=== YOUTUBE SNIPPETS ===\n" ++ youtube_data] else []) ++
  (if pyStrip official_data ≠ [] then [str "=== OFFICIAL SITE SNIPPETS ===\n" ++ official_data] else []) ++
  (if pyStrip tumblr_data ≠ [] then [str "=== TUMBLR SNIPPETS ===\n" ++ tumblr_data] else [])

/-- The message of the `ValueError` raised when nothing was collected. -/
def noDataMsg : Str := str "No fandom data collected from any source."

/-- Function `send_swift_scroll.build_fandom_data`, as a function of the four
collector outputs (the aggregation logic of lines 63–82): join the non-empty
sections with a blank line; raise (`.error`) when the combined corpus is
empty after `strip()`, otherwise return it. -/
def build_fandom_data (reddit_data youtube_data official_data tumblr_data : Str) :
    Except Str Str :=
  let combined := joinWith (str "\n\n")
    (fandomParts reddit_data youtube_data official_data tumblr_data)
  if pyStrip combined = [] then .error noDataMsg else .ok combined

namespace HtmlText

/-- Modelled from the spec: the text normalization performed inside
BeautifulSoup's `get_text(separator=" ", strip=True)`, which is external
library code and not part of this repository's sources.  Per the spec:
"collapse all run of whitespace/markup-induced line breaks into single
spaces, strip leading/trailing whitespace".  `collapseAux prev l` collapses
every run of whitespace into a single space, `prev` recording whether the
previously emitted character was such a collapsed space. -/
def collapseAux : Bool → Str → Str
  | _, [] => []
  | prev, c :: rest =>
    if pySpace c then
      if prev then collapseAux true rest else ' ' :: collapseAux true rest
    else c :: collapseAux false rest

/-- Modelled from the spec: whitespace-run collapsing followed by trimming
(see `collapseAux`). -/
def normalize (l : Str) : Str := pyStrip (collapseAux false l)

end HtmlText

/-- Substring containment: `needle` occurs contiguously inside `hay`. -/
def hasSub (needle hay : Str) : Prop := ∃ l r, hay = l ++ needle ++ r

/-- Every line-boundary character occurring in `l` is a plain newline. -/
def onlyNl (l : Str) : Prop := ∀ c ∈ l, lineBoundary c = true → c = '\n'

/-- No two adjacent whitespace characters (the shape of whitespace-collapsed
text). -/
def noTwoSpace (a b : Char) : Prop := ¬(pySpace a = true ∧ pySpace b = true)

instance decOnlyNl (l : Str) : Decidable (onlyNl l) :=
  List.decidableBAll (fun c => lineBoundary c = true → c = '\n') l

/-! ## Claim theorems -/

/-- Claim C5 (confirmed): for every text whose length strictly exceeds the cap,
the truncated text has length exactly `cap + len("...")` and its first `cap`
characters equal the first `cap` characters of the source; text at or under
the cap is unchanged.  `truncate` is the single truncation pattern
instantiated at 200/400/500 by the collectors. -/
theorem C5_truncation (cap : Nat) (l : Str) :
    (l.length > cap →
      (truncate cap l).length = cap + ellipsisMarker.length ∧
      (truncate cap l).take cap = l.take cap) ∧
    (l.length ≤ cap → truncate cap l = l) := by
  constructor
  · intro h
    constructor
    · simp only [truncate, if_pos h, List.length_append, List.length_take]
      omega
    · rw [truncate, if_pos h, List.take_left' (by simp only [List.length_take]; omega)]
  · intro h
    simp [truncate, Nat.not_lt.mpr h]

/-- Witness for `C5_truncation` at concrete inputs. -/
theorem C5_truncation_witness :
    (truncate 3 (str "abcdefg")).length = 3 + ellipsisMarker.length ∧
    (truncate 3 (str "abcdefg")).take 3 = (str "abcdefg").take 3 ∧
    truncate 7 (str "abcdefg") = str "abcdefg" :=
  ⟨((C5_truncation 3 (str "abcdefg")).1 (by decide)).1,
   ((C5_truncation 3 (str "abcdefg")).1 (by decide)).2,
   (C5_truncation 7 (str "abcdefg")).2 (by decide)⟩

/-- Claim C7 (confirmed): the forum collector called with an empty subreddit
list, and the video collector with an absent or empty channel id, return the
empty output (and in the video collector's case, no exception) for every
oracle — in particular the result does not depend on the network oracle,
which is never consulted on this path. -/
theorem C7_unconfigured_sources :
    (∀ top max_posts max_comments_per_post,
      CollectorReddit.collect_reddit_snippets top [] max_posts max_comments_per_post = []) ∧
    (∀ videos comments max_videos max_comments,
      CollectorYoutube.collect_youtube_snippets videos comments none max_videos max_comments =
        .ok []) ∧
    (∀ videos comments max_videos max_comments,
      CollectorYoutube.collect_youtube_snippets videos comments (some []) max_videos max_comments =
        .ok []) :=
  ⟨fun _ _ _ => rfl, fun _ _ _ _ => rfl, fun _ _ _ _ => rfl⟩

/-- Counterexample to claim C8 as stated: the `requests.get` call of
`fetch_video_comments` is not guarded by any `try`/`except`, so a comment
fetch that raises (timeout, network error) for one video propagates out of
`collect_youtube_snippets` and aborts the run — here the first of two
videos' comment fetches raises, and the collector returns the exception
rather than any output, so the second video's snippets do not appear. -/
theorem C8_counterexample :
    CollectorYoutube.collect_youtube_snippets
        (fun _ _ => .ok [⟨some (str "v1"), str "T1", str "D1"⟩,
                         ⟨some (str "v2"), str "T2", str "D2"⟩])
        (fun vid _ =>
          if vid = str "v1" then .error (str "timed out")
          else .ok ⟨200, [str "great video"]⟩)
        (some (str "chan")) 5 5 = .error (str "timed out") := by
  rfl

/-- Claim C8 (corrected): a comment-fetch failure surfaced as a delivered
non-200 response (e.g. comments disabled) degrades to an empty comment list
for that video only — the failing video still contributes exactly its own
video snippet, and batches whose parts all deliver compose per video, so
every other video's snippets are unaffected.  But a comment fetch that
raises (timeout, network error at the unguarded `requests.get`) propagates
and aborts collection of the remaining videos. -/
theorem C8_comment_failure_amended :
    (∀ comments max_comments vid (resp : CollectorYoutube.CommentsResp),
      comments vid max_comments = .ok resp → resp.status ≠ 200 →
      CollectorYoutube.fetch_video_comments comments vid max_comments = .ok []) ∧
    (∀ comments max_comments (item : CollectorYoutube.YtVideo) vid resp,
      item.videoId = some vid → vid ≠ [] →
      comments vid max_comments = .ok resp → resp.status ≠ 200 →
      CollectorYoutube.videoPart comments max_comments item =
        .ok [CollectorYoutube.videoSnippet item]) ∧
    (∀ comments max_comments pre (item : CollectorYoutube.YtVideo) post b1 p b2,
      CollectorYoutube.youtubeBatch comments max_comments pre = .ok b1 →
      CollectorYoutube.videoPart comments max_comments item = .ok p →
      CollectorYoutube.youtubeBatch comments max_comments post = .ok b2 →
      CollectorYoutube.youtubeBatch comments max_comments (pre ++ item :: post) =
        .ok (b1 ++ p ++ b2)) ∧
    (∀ comments max_comments pre (item : CollectorYoutube.YtVideo) post e b1,
      CollectorYoutube.youtubeBatch comments max_comments pre = .ok b1 →
      CollectorYoutube.videoPart comments max_comments item = .error e →
      CollectorYoutube.youtubeBatch comments max_comments (pre ++ item :: post) =
        .error e) := by
  refine ⟨?_, ?_, ?_, ?_⟩
  · intro comments mc vid resp hresp hstatus
    simp [CollectorYoutube.fetch_video_comments, hresp, hstatus]
  · intro comments mc item vid resp hvid hne hresp hstatus
    simp [CollectorYoutube.videoPart, hvid, hne,
      CollectorYoutube.fetch_video_comments, hresp, hstatus]
  · intro comments mc pre item post b1 p b2 hpre hitem hpost
    induction pre generalizing b1 with
    | nil =>
      simp only [CollectorYoutube.youtubeBatch, Except.ok.injEq] at hpre
      subst hpre
      simp [CollectorYoutube.youtubeBatch, hitem, hpost]
    | cons q pre2 ih =>
      revert hpre
      simp only [CollectorYoutube.youtubeBatch, List.cons_append, List.append_eq]
      cases hq : CollectorYoutube.videoPart comments mc q with
      | error e => intro hpre; exact absurd hpre (by simp)
      | ok part1 =>
        cases hrest : CollectorYoutube.youtubeBatch comments mc pre2 with
        | error e => intro hpre; exact absurd hpre (by simp)
        | ok more =>
          intro hpre
          simp only [Except.ok.injEq] at hpre
          subst hpre
          rw [ih more hrest]
          simp [List.append_assoc]
  · intro comments mc pre item post e b1 hpre hitem
    induction pre generalizing b1 with
    | nil => simp [CollectorYoutube.youtubeBatch, hitem]
    | cons q pre2 ih =>
      revert hpre
      simp only [CollectorYoutube.youtubeBatch, List.cons_append, List.append_eq]
      cases hq : CollectorYoutube.videoPart comments mc q with
      | error e2 => intro hpre; exact absurd hpre (by simp)
      | ok part1 =>
        cases hrest : CollectorYoutube.youtubeBatch comments mc pre2 with
        | error e2 => intro hpre; exact absurd hpre (by simp)
        | ok more =>
          intro _
          rw [ih more hrest]

/-- Witness for `C8_comment_failure_amended`: a concrete 403 response leaves
the video's snippet alone in its part, and a concrete raising fetch in front
of a healthy second video aborts the batch. -/
theorem C8_comment_failure_amended_witness :
    CollectorYoutube.videoPart (fun _ _ => .ok ⟨403, [str "hi"]⟩) 5
        ⟨some (str "v1"), str "Title", str "Desc"⟩ =
      .ok [CollectorYoutube.videoSnippet ⟨some (str "v1"), str "Title", str "Desc"⟩] ∧
    CollectorYoutube.youtubeBatch (fun _ _ => .error (str "timed out")) 5
        (⟨some (str "v1"), str "T1", str "D1"⟩ :: [⟨some (str "v2"), str "T2", str "D2"⟩]) =
      .error (str "timed out") :=
  ⟨C8_comment_failure_amended.2.1 (fun _ _ => .ok ⟨403, [str "hi"]⟩) 5
      ⟨some (str "v1"), str "Title", str "Desc"⟩ (str "v1") ⟨403, [str "hi"]⟩
      rfl (by decide) rfl (by decide),
   C8_comment_failure_amended.2.2.2 (fun _ _ => .error (str "timed out")) 5
      [] ⟨some (str "v1"), str "T1", str "D1"⟩ [⟨some (str "v2"), str "T2", str "D2"⟩]
      (str "timed out") [] rfl rfl⟩

/-- Claim C6 (confirmed): for each configured page/blog URL, a fetch failure
(the caught exception `e`) yields exactly the single error-tagged snippet,
whose text contains both the URL and the failure cause; the collector is a
total function, so nothing escapes it. -/
theorem C6_fetch_failure_error_snippet :
    (∀ url e fetchPage, url ≠ [] → fetchPage url = .error e →
      CollectorTumblr.tumblrBatch (some url) fetchPage =
          [CollectorTumblr.errorSnippet url e] ∧
        hasSub url (CollectorTumblr.errorSnippet url e) ∧
        hasSub e (CollectorTumblr.errorSnippet url e)) ∧
    (∀ url e fetchPage, url ≠ [] → fetchPage url = .error e →
      CollectorSite.taylorSitePart (some url) fetchPage =
          [CollectorSite.errorSnippet (str "OFFICIAL SITE") url e] ∧
        hasSub url (CollectorSite.errorSnippet (str "OFFICIAL SITE") url e) ∧
        hasSub e (CollectorSite.errorSnippet (str "OFFICIAL SITE") url e)) ∧
    (∀ url e fetchPage, url ≠ [] → fetchPage url = .error e →
      CollectorSite.showgirlSitePart (some url) fetchPage =
          [CollectorSite.errorSnippet (str "SHOWGIRL") url e] ∧
        hasSub url (CollectorSite.errorSnippet (str "SHOWGIRL") url e) ∧
        hasSub e (CollectorSite.errorSnippet (str "SHOWGIRL") url e)) := by
  refine ⟨?_, ?_, ?_⟩ <;> intro url e fetchPage hne hfail
  · refine ⟨by simp [CollectorTumblr.tumblrBatch, hne, hfail], ?_, ?_⟩
    · exact ⟨str "[TUMBLR ERROR] Could not fetch ", str ": " ++ e,
        by simp [CollectorTumblr.errorSnippet, List.append_assoc]⟩
    · exact ⟨str "[TUMBLR ERROR] Could not fetch " ++ url ++ str ": ", [],
        by simp [CollectorTumblr.errorSnippet, List.append_assoc]⟩
  · refine ⟨by simp [CollectorSite.taylorSitePart, hne, hfail], ?_, ?_⟩
    · exact ⟨str "[" ++ str "OFFICIAL SITE" ++ str " ERROR] Could not fetch ", str ": " ++ e,
        by simp [CollectorSite.errorSnippet, List.append_assoc]⟩
    · exact ⟨str "[" ++ str "OFFICIAL SITE" ++ str " ERROR] Could not fetch " ++ url ++ str ": ", [],
        by simp [CollectorSite.errorSnippet, List.append_assoc]⟩
  · refine ⟨by simp [CollectorSite.showgirlSitePart, hne, hfail], ?_, ?_⟩
    · exact ⟨str "[" ++ str "SHOWGIRL" ++ str " ERROR] Could not fetch ", str ": " ++ e,
        by simp [CollectorSite.errorSnippet, List.append_assoc]⟩
    · exact ⟨str "[" ++ str "SHOWGIRL" ++ str " ERROR] Could not fetch " ++ url ++ str ": ", [],
        by simp [CollectorSite.errorSnippet, List.append_assoc]⟩

/-- Witness for `C6_fetch_failure_error_snippet`: a concrete timeout message
for a concrete URL on all three fetch sites. -/
theorem C6_fetch_failure_error_snippet_witness :
    (CollectorTumblr.tumblrBatch (some (str "https://t.example"))
          (fun _ => .error (str "timed out")) =
        [CollectorTumblr.errorSnippet (str "https://t.example") (str "timed out")] ∧
      hasSub (str "https://t.example")
        (CollectorTumblr.errorSnippet (str "https://t.example") (str "timed out")) ∧
      hasSub (str "timed out")
        (CollectorTumblr.errorSnippet (str "https://t.example") (str "timed out"))) ∧
    (CollectorSite.taylorSitePart (some (str "https://o.example"))
          (fun _ => .error (str "timed out")) =
        [CollectorSite.errorSnippet (str "OFFICIAL SITE") (str "https://o.example") (str "timed out")] ∧
      hasSub (str "https://o.example")
        (CollectorSite.errorSnippet (str "OFFICIAL SITE") (str "https://o.example") (str "timed out")) ∧
      hasSub (str "timed out")
        (CollectorSite.errorSnippet (str "OFFICIAL SITE") (str "https://o.example") (str "timed out"))) ∧
    (CollectorSite.showgirlSitePart (some (str "https://s.example"))
          (fun _ => .error (str "timed out")) =
        [CollectorSite.errorSnippet (str "SHOWGIRL") (str "https://s.example") (str "timed out")] ∧
      hasSub (str "https://s.example")
        (CollectorSite.errorSnippet (str "SHOWGIRL") (str "https://s.example") (str "timed out")) ∧
      hasSub (str "timed out")
        (CollectorSite.errorSnippet (str "SHOWGIRL") (str "https://s.example") (str "timed out"))) :=
  ⟨C6_fetch_failure_error_snippet.1 (str "https://t.example") (str "timed out")
      (fun _ => .error (str "timed out")) (by decide) rfl,
   C6_fetch_failure_error_snippet.2.1 (str "https://o.example") (str "timed out")
      (fun _ => .error (str "timed out")) (by decide) rfl,
   C6_fetch_failure_error_snippet.2.2 (str "https://s.example") (str "timed out")
      (fun _ => .error (str "timed out")) (by decide) rfl⟩

/-- Stripping the empty string gives the empty string. -/
theorem pyStrip_nil : pyStrip [] = [] := rfl

/-- A string starting with a non-whitespace character strips to something
non-empty. -/
theorem pyStrip_cons_ne_nil (c : Char) (m : Str) (h : pySpace c = false) :
    pyStrip (c :: m) ≠ [] := by
  simp [pyStrip, List.dropWhile_cons, h, stripEnd]

/-- Joining a non-empty list starts with its first element. -/
theorem joinWith_cons_exists (sep q : Str) (qs : List Str) :
    ∃ m, joinWith sep (q :: qs) = q ++ m := by
  cases qs with
  | nil => exact ⟨[], by simp [joinWith]⟩
  | cons y ys => exact ⟨sep ++ joinWith sep (y :: ys), by simp [joinWith, List.append_assoc]⟩

/-- Every section `build_fandom_data` assembles starts with the `'='` of its
header line. -/
theorem fandomParts_head_eq (r y o t : Str) {p : Str}
    (hp : p ∈ fandomParts r y o t) : ∃ m, p = '=' :: m := by
  simp only [fandomParts, List.mem_append] at hp
  rcases hp with ((hp | hp) | hp) | hp <;>
    · revert hp
      split
      · intro hp
        simp at hp
        subst hp
        exact ⟨_, rfl⟩
      · intro hp
        simp at hp

/-- If any collector output survives `strip()`, at least one section exists. -/
theorem fandomParts_ne_nil (r y o t : Str)
    (h : pyStrip r ≠ [] ∨ pyStrip y ≠ [] ∨ pyStrip o ≠ [] ∨ pyStrip t ≠ []) :
    fandomParts r y o t ≠ [] := by
  rcases h with h | h | h | h <;> simp [fandomParts, h, List.append_eq_nil]

/-- Claim C1 (confirmed): `build_fandom_data` raises the distinct
no-data-collected `ValueError` exactly when every collector output is empty
or whitespace-only after trimming; as soon as one output is non-empty after
trimming it returns the combined corpus and never raises, because the
corresponding section header makes the corpus non-empty. -/
theorem C1_no_data_collected (r y o t : Str) :
    ((pyStrip r = [] ∧ pyStrip y = [] ∧ pyStrip o = [] ∧ pyStrip t = []) →
      build_fandom_data r y o t = .error noDataMsg) ∧
    ((pyStrip r ≠ [] ∨ pyStrip y ≠ [] ∨ pyStrip o ≠ [] ∨ pyStrip t ≠ []) →
      build_fandom_data r y o t = .ok (joinWith (str "\n\n") (fandomParts r y o t))) := by
  constructor
  · rintro ⟨h1, h2, h3, h4⟩
    simp [build_fandom_data, fandomParts, h1, h2, h3, h4, joinWith, pyStrip_nil]
  · intro hne
    obtain ⟨q, qs, hq⟩ := List.exists_cons_of_ne_nil (fandomParts_ne_nil r y o t hne)
    obtain ⟨m, hm⟩ := fandomParts_head_eq r y o t (hq ▸ List.mem_cons_self q qs)
    obtain ⟨j, hj⟩ := joinWith_cons_exists (str "\n\n") q qs
    have hcomb : pyStrip (joinWith (str "\n\n") (fandomParts r y o t)) ≠ [] := by
      rw [hq, hj, hm, List.cons_append]
      exact pyStrip_cons_ne_nil _ _ (by decide)
    simp [build_fandom_data, hcomb]

/-- Witness for `C1_no_data_collected`: all-whitespace outputs raise; one
non-empty output returns the single-section corpus. -/
theorem C1_no_data_collected_witness :
    build_fandom_data (str " ") (str "") (str "\n\t") (str "") = .error noDataMsg ∧
    build_fandom_data (str "hello") (str "") (str "") (str "") =
      .ok (joinWith (str "\n\n") (fandomParts (str "hello") (str "") (str "") (str ""))) :=
  ⟨(C1_no_data_collected (str " ") (str "") (str "\n\t") (str "")).1
      ⟨by decide, by decide, by decide, by decide⟩,
   (C1_no_data_collected (str "hello") (str "") (str "") (str "")).2
      (Or.inl (by decide))⟩

/-- Claim C10 (confirmed, implicit claim): when every configured page/blog URL
fails to fetch and the API-backed sources yield nothing, the error snippets
alone make the page/blog batches non-empty, so `build_fandom_data` emits
sections containing only error snippets and does **not** raise the
no-data-collected error, even though no actual source content exists. -/
theorem C10_error_snippets_defeat_no_data (u1 e1 u2 e2 : Str)
    (hu1 : u1 ≠ []) (hu2 : u2 ≠ []) :
    CollectorSite.collect_official_site_snippets (some u1) none (fun _ => .error e1) =
      CollectorSite.errorSnippet (str "OFFICIAL SITE") u1 e1 ∧
    CollectorTumblr.collect_tumblr_snippets (some u2) (fun _ => .error e2) =
      CollectorTumblr.errorSnippet u2 e2 ∧
    build_fandom_data [] []
        (CollectorSite.collect_official_site_snippets (some u1) none (fun _ => .error e1))
        (CollectorTumblr.collect_tumblr_snippets (some u2) (fun _ => .error e2)) =
      .ok (str "=== OFFICIAL SITE SNIPPETS ===\n" ++
             CollectorSite.errorSnippet (str "OFFICIAL SITE") u1 e1 ++
           (str "\n\n" ++
            (str "=== TUMBLR SNIPPETS ===\n" ++ CollectorTumblr.errorSnippet u2 e2))) := by
  have ho : CollectorSite.collect_official_site_snippets (some u1) none (fun _ => .error e1) =
      CollectorSite.errorSnippet (str "OFFICIAL SITE") u1 e1 := by
    simp [CollectorSite.collect_official_site_snippets, CollectorSite.taylorSitePart,
      CollectorSite.showgirlSitePart, hu1, joinWith]
  have ht : CollectorTumblr.collect_tumblr_snippets (some u2) (fun _ => .error e2) =
      CollectorTumblr.errorSnippet u2 e2 := by
    simp [CollectorTumblr.collect_tumblr_snippets, CollectorTumblr.tumblrBatch, hu2, joinWith]
  have hOne : pyStrip (CollectorSite.errorSnippet (str "OFFICIAL SITE") u1 e1) ≠ [] :=
    pyStrip_cons_ne_nil _ _ (by decide)
  have hTne : pyStrip (CollectorTumblr.errorSnippet u2 e2) ≠ [] :=
    pyStrip_cons_ne_nil _ _ (by decide)
  refine ⟨ho, ht, ?_⟩
  rw [ho, ht,
    (C1_no_data_collected [] [] (CollectorSite.errorSnippet (str "OFFICIAL SITE") u1 e1)
        (CollectorTumblr.errorSnippet u2 e2)).2 (Or.inr (Or.inr (Or.inl hOne)))]
  have hparts : fandomParts [] [] (CollectorSite.errorSnippet (str "OFFICIAL SITE") u1 e1)
      (CollectorTumblr.errorSnippet u2 e2) =
      [str "=== OFFICIAL SITE SNIPPETS ===\n" ++
         CollectorSite.errorSnippet (str "OFFICIAL SITE") u1 e1,
       str "=== TUMBLR SNIPPETS ===\n" ++ CollectorTumblr.errorSnippet u2 e2] := by
    rw [fandomParts, if_neg (by simp [pyStrip_nil]), if_neg (by simp [pyStrip_nil]),
      if_pos hOne, if_pos hTne]
    rfl
  rw [hparts]
  rw [show joinWith (str "\n\n")
      [str "=== OFFICIAL SITE SNIPPETS ===\n" ++
         CollectorSite.errorSnippet (str "OFFICIAL SITE") u1 e1,
       str "=== TUMBLR SNIPPETS ===\n" ++ CollectorTumblr.errorSnippet u2 e2] =
      str "=== OFFICIAL SITE SNIPPETS ===\n" ++
        CollectorSite.errorSnippet (str "OFFICIAL SITE") u1 e1 ++
        (str "\n\n" ++
         (str "=== TUMBLR SNIPPETS ===\n" ++ CollectorTumblr.errorSnippet u2 e2))
      from by simp [joinWith, List.append_assoc]]

/-- Witness for `C10_error_snippets_defeat_no_data` at concrete URLs and
failure messages. -/
theorem C10_error_snippets_defeat_no_data_witness :
    build_fandom_data [] []
        (CollectorSite.collect_official_site_snippets (some (str "https://o.example")) none
          (fun _ => .error (str "boom")))
        (CollectorTumblr.collect_tumblr_snippets (some (str "https://t.example"))
          (fun _ => .error (str "down"))) =
      .ok (str "=== OFFICIAL SITE SNIPPETS ===\n" ++
             CollectorSite.errorSnippet (str "OFFICIAL SITE") (str "https://o.example") (str "boom") ++
           (str "\n\n" ++
            (str "=== TUMBLR SNIPPETS ===\n" ++
             CollectorTumblr.errorSnippet (str "https://t.example") (str "down")))) :=
  (C10_error_snippets_defeat_no_data (str "https://o.example") (str "boom")
    (str "https://t.example") (str "down") (by decide) (by decide)).2.2

/-- The paragraph loop halts as soon as the accumulator exceeds 40 entries,
so its result is bounded by one append past the start, or 41, whichever is
larger. -/
theorem siteParas_length_le (label : Str) (ps : List Str) :
    ∀ acc, (CollectorSite.siteParas label acc ps).length ≤ max (acc.length + 1) 41 := by
  induction ps with
  | nil =>
    intro acc
    simp only [CollectorSite.siteParas]
    omega
  | cons p rest ih =>
    intro acc
    simp only [CollectorSite.siteParas]
    split
    · exact Nat.le_trans (ih acc) (by omega)
    · split
      · simp only [List.length_append, List.length_cons, List.length_nil]
        omega
      · rename_i hstop
        have h := ih (acc ++ [CollectorSite.textSnippet label (truncate 400 (pyStrip p))])
        simp only [List.length_append, List.length_cons, List.length_nil] at h hstop ⊢
        omega

set_option maxRecDepth 8000 in
/-- Counterexample to claim C4 as stated: a document with no headings and 42
qualifying paragraphs yields 41 paragraph-derived snippets — one more than
the claimed hard cap of 40 — because the source appends first and only then
checks `len(snippets) > 40`. -/
theorem C4_counterexample :
    CollectorSite.siteHeadings (str "OFFICIAL SITE") ([] : List Str) = [] ∧
    ¬ ((CollectorSite.extract_snippets_from_html
          ⟨[], List.replicate 42 (str "cccccccccccccccccccccccccccccccccccccccc")⟩
          (str "OFFICIAL SITE")).length ≤ 40) := by
  constructor
  · rfl
  · decide

/-- Claim C4 (corrected): the per-document stop bounds the number of
paragraph-derived snippets by 41, not 40 (the total snippet count, headings
included, never exceeds the heading count plus 41, and with no headings the
output — all of it paragraph-derived — has at most 41 entries). -/
theorem C4_paragraph_cap_amended (doc : CollectorSite.SiteDoc) (label : Str) :
    (CollectorSite.extract_snippets_from_html doc label).length ≤
      (CollectorSite.siteHeadings label doc.headings).length + 41 ∧
    (CollectorSite.extract_snippets_from_html ⟨[], doc.paragraphs⟩ label).length ≤ 41 := by
  constructor
  · have h := siteParas_length_le label doc.paragraphs
      (CollectorSite.siteHeadings label doc.headings)
    have he : CollectorSite.extract_snippets_from_html doc label =
        CollectorSite.siteParas label (CollectorSite.siteHeadings label doc.headings)
          doc.paragraphs := rfl
    rw [he]
    omega
  · have h := siteParas_length_le label doc.paragraphs []
    have he : CollectorSite.extract_snippets_from_html ⟨[], doc.paragraphs⟩ label =
        CollectorSite.siteParas label [] doc.paragraphs := rfl
    rw [he]
    simp only [List.length_nil] at h
    omega

/-- When every container qualifies (non-empty, ≥ 40 chars after strip) and
the accumulator plus the containers stay within the 30-stop, the container
loop appends one `POST` snippet per container. -/
theorem tumblrPosts_all (label : Str) (cs : List Str) :
    ∀ acc, (∀ c ∈ cs, pyStrip c ≠ [] ∧ 40 ≤ (pyStrip c).length) →
      acc.length + cs.length ≤ 30 →
      CollectorTumblr.tumblrPosts label acc cs =
        acc ++ cs.map (fun c => CollectorTumblr.postSnippet label (truncate 500 (pyStrip c))) := by
  induction cs with
  | nil => intro acc _ _; simp [CollectorTumblr.tumblrPosts]
  | cons c rest ih =>
    intro acc hq hlen
    have h1 := hq c (List.mem_cons_self c rest)
    simp only [CollectorTumblr.tumblrPosts]
    split
    · rename_i hcond
      simp only [Bool.or_eq_true, decide_eq_true_eq] at hcond
      rcases hcond with h | h
      · exact absurd h h1.1
      · omega
    · split
      · rename_i hstop
        simp only [List.length_append, List.length_cons, List.length_nil] at hstop
        simp only [List.length_cons] at hlen
        omega
      · rw [ih _ (fun x hx => hq x (List.mem_cons_of_mem c hx))
          (by simp only [List.length_append, List.length_cons, List.length_nil]
              simp only [List.length_cons] at hlen
              omega)]
        simp [List.append_assoc]

/-- The paragraph fallback loop behaves the same way under the same
conditions, appending one `TEXT` snippet per qualifying paragraph. -/
theorem tumblrParas_all (label : Str) (ps : List Str) :
    ∀ acc, (∀ p ∈ ps, pyStrip p ≠ [] ∧ 40 ≤ (pyStrip p).length) →
      acc.length + ps.length ≤ 30 →
      CollectorTumblr.tumblrParas label acc ps =
        acc ++ ps.map (fun p => CollectorTumblr.textSnippet label (truncate 400 (pyStrip p))) := by
  induction ps with
  | nil => intro acc _ _; simp [CollectorTumblr.tumblrParas]
  | cons p rest ih =>
    intro acc hq hlen
    have h1 := hq p (List.mem_cons_self p rest)
    simp only [CollectorTumblr.tumblrParas]
    split
    · rename_i hcond
      simp only [Bool.or_eq_true, decide_eq_true_eq] at hcond
      rcases hcond with h | h
      · exact absurd h h1.1
      · omega
    · split
      · rename_i hstop
        simp only [List.length_append, List.length_cons, List.length_nil] at hstop
        simp only [List.length_cons] at hlen
        omega
      · rw [ih _ (fun x hx => hq x (List.mem_cons_of_mem p hx))
          (by simp only [List.length_append, List.length_cons, List.length_nil]
              simp only [List.length_cons] at hlen
              omega)]
        simp [List.append_assoc]

set_option maxRecDepth 8000 in
/-- Counterexample to claim C3 as stated: on markup with exactly 3 qualifying
`post` containers and 15 qualifying paragraphs, the extractor returns 18
snippets, not the 3 container-derived ones — the fallback threshold **is**
triggered, because 3 < 10. -/
theorem C3_counterexample :
    (CollectorTumblr.extract_snippets_from_html
        ⟨List.replicate 3 (str "cccccccccccccccccccccccccccccccccccccccc"),
         List.replicate 15 (str "cccccccccccccccccccccccccccccccccccccccc")⟩
        (str "TUMBLR")).length = 18 ∧
    CollectorTumblr.extract_snippets_from_html
        ⟨List.replicate 3 (str "cccccccccccccccccccccccccccccccccccccccc"),
         List.replicate 15 (str "cccccccccccccccccccccccccccccccccccccccc")⟩
        (str "TUMBLR") ≠
      (List.replicate 3 (str "cccccccccccccccccccccccccccccccccccccccc")).map
        (fun c => CollectorTumblr.postSnippet (str "TUMBLR") (truncate 500 (pyStrip c))) := by
  constructor
  · decide
  · decide

/-- Claim C3 (corrected): with 3 qualifying containers and 15 qualifying
paragraphs the fallback threshold of 10 **is** triggered (3 < 10), so the
result is the 3 container-derived `POST` snippets followed additively by the
15 paragraph-derived `TEXT` snippets. -/
theorem C3_container_fallback_amended (label : Str) (cs ps : List Str)
    (hcs : cs.length = 3) (hps : ps.length = 15)
    (hqc : ∀ c ∈ cs, pyStrip c ≠ [] ∧ 40 ≤ (pyStrip c).length)
    (hqp : ∀ p ∈ ps, pyStrip p ≠ [] ∧ 40 ≤ (pyStrip p).length) :
    CollectorTumblr.extract_snippets_from_html ⟨cs, ps⟩ label =
      cs.map (fun c => CollectorTumblr.postSnippet label (truncate 500 (pyStrip c))) ++
      ps.map (fun p => CollectorTumblr.textSnippet label (truncate 400 (pyStrip p))) := by
  have h1 := tumblrPosts_all label cs [] hqc (by simp only [List.length_nil, hcs]; omega)
  simp only [List.nil_append] at h1
  simp only [CollectorTumblr.extract_snippets_from_html]
  rw [h1, if_pos (by simp [hcs])]
  exact tumblrParas_all label ps _ hqp (by simp only [List.length_map, hcs, hps]; omega)

set_option maxRecDepth 8000 in
/-- Witness for `C3_container_fallback_amended` at concrete qualifying
markup texts. -/
theorem C3_container_fallback_amended_witness :
    CollectorTumblr.extract_snippets_from_html
        ⟨List.replicate 3 (str "dddddddddddddddddddddddddddddddddddddddd"),
         List.replicate 15 (str "dddddddddddddddddddddddddddddddddddddddd")⟩
        (str "TUMBLR") =
      (List.replicate 3 (str "dddddddddddddddddddddddddddddddddddddddd")).map
        (fun c => CollectorTumblr.postSnippet (str "TUMBLR") (truncate 500 (pyStrip c))) ++
      (List.replicate 15 (str "dddddddddddddddddddddddddddddddddddddddd")).map
        (fun p => CollectorTumblr.textSnippet (str "TUMBLR") (truncate 400 (pyStrip p))) :=
  C3_container_fallback_amended (str "TUMBLR") _ _ (by decide) (by decide)
    (by decide) (by decide)

/-- Every whitespace character the collapser emits is a plain space. -/
theorem collapseAux_mem_space (b : Bool) (l : Str) :
    ∀ c ∈ HtmlText.collapseAux b l, pySpace c = true → c = ' ' := by
  induction l generalizing b with
  | nil => intro c hc hsp; simp [HtmlText.collapseAux] at hc
  | cons d rest ih =>
    intro c hc hsp
    simp only [HtmlText.collapseAux] at hc
    by_cases hd : pySpace d = true
    · rw [if_pos hd] at hc
      cases b with
      | true => exact ih true c (by simpa using hc) hsp
      | false =>
        rw [if_neg (by simp)] at hc
        rcases List.mem_cons.1 hc with h | h
        · exact h
        · exact ih true c h hsp
    · rw [if_neg hd] at hc
      rcases List.mem_cons.1 hc with h | h
      · subst h; exact absurd hsp hd
      · exact ih false c h hsp

/-- After a collapsed space the collapser never emits a whitespace character
first. -/
theorem collapseAux_true_head (l : Str) :
    ∀ c, (HtmlText.collapseAux true l).head? = some c → pySpace c = false := by
  induction l with
  | nil => intro c hc; simp [HtmlText.collapseAux] at hc
  | cons d rest ih =>
    intro c hc
    simp only [HtmlText.collapseAux] at hc
    by_cases hd : pySpace d = true
    · rw [if_pos hd, if_pos trivial] at hc
      exact ih c hc
    · rw [if_neg hd] at hc
      simp only [List.head?_cons, Option.some.injEq] at hc
      subst hc
      exact Bool.eq_false_iff.mpr hd

/-- The collapser never emits two adjacent whitespace characters. -/
theorem collapseAux_chain' (b : Bool) (l : Str) :
    List.Chain' noTwoSpace (HtmlText.collapseAux b l) := by
  induction l generalizing b with
  | nil => simp [HtmlText.collapseAux]
  | cons d rest ih =>
    simp only [HtmlText.collapseAux]
    by_cases hd : pySpace d = true
    · rw [if_pos hd]
      cases b with
      | true => exact ih true
      | false =>
        rw [if_neg (by simp)]
        refine List.chain'_cons'.mpr ⟨?_, ih true⟩
        intro y hy
        exact fun h => by simp [collapseAux_true_head rest y hy] at h
    · rw [if_neg hd]
      refine List.chain'_cons'.mpr ⟨?_, ih false⟩
      intro y hy
      exact fun h => hd h.1

/-- When the input starts with a non-space (or is empty), the collapsed-space
flag makes no difference. -/
theorem collapseAux_true_eq_false (l : Str)
    (h : ∀ c, l.head? = some c → pySpace c = false) :
    HtmlText.collapseAux true l = HtmlText.collapseAux false l := by
  cases l with
  | nil => rfl
  | cons c rest =>
    have hc : pySpace c = false := h c rfl
    simp only [HtmlText.collapseAux, hc]
    simp

/-- Lemma: `stripEnd` only keeps characters of the input. -/
theorem stripEnd_mem (l : Str) : ∀ c ∈ stripEnd l, c ∈ l := by
  induction l with
  | nil => intro c hc; simp [stripEnd] at hc
  | cons d rest ih =>
    intro c hc
    simp only [stripEnd] at hc
    split at hc
    · simp at hc
    · rcases List.mem_cons.1 hc with h | h
      · simp [h]
      · exact List.mem_cons_of_mem d (ih c h)

/-- Lemma: `stripEnd` of a list is empty or keeps the head. -/
theorem stripEnd_head? (l : Str) :
    stripEnd l = [] ∨ (stripEnd l).head? = l.head? := by
  cases l with
  | nil => exact Or.inl rfl
  | cons d rest =>
    simp only [stripEnd]
    split
    · exact Or.inl rfl
    · exact Or.inr rfl

/-- Lemma: `stripEnd` preserves the no-two-adjacent-spaces shape. -/
theorem stripEnd_chain' (l : Str) (h : List.Chain' noTwoSpace l) :
    List.Chain' noTwoSpace (stripEnd l) := by
  induction l with
  | nil => exact List.chain'_nil
  | cons d rest ih =>
    simp only [stripEnd]
    split
    · exact List.chain'_nil
    · refine List.chain'_cons'.mpr ⟨?_, ih (List.Chain'.tail h)⟩
      intro y hy
      rcases stripEnd_head? rest with he | he
      · simp [he] at hy
      · rw [he] at hy
        exact (List.chain'_cons'.mp h).1 y hy

/-- The last character surviving `stripEnd` is never whitespace. -/
theorem stripEnd_getLast (l : Str) :
    ∀ c, (stripEnd l).getLast? = some c → pySpace c = false := by
  induction l with
  | nil => intro c hc; simp [stripEnd] at hc
  | cons d rest ih =>
    intro c hc
    simp only [stripEnd] at hc
    split at hc
    · simp at hc
    · rename_i hcond
      cases hr : stripEnd rest with
      | nil =>
        rw [hr] at hc
        simp only [List.getLast?_singleton, Option.some.injEq] at hc
        subst hc
        simpa [hr] using hcond
      | cons e r2 =>
        rw [hr, List.getLast?_cons_cons] at hc
        exact ih c (hr ▸ hc)

/-- Lemma: `stripEnd` is idempotent. -/
theorem stripEnd_idem (l : Str) : stripEnd (stripEnd l) = stripEnd l := by
  induction l with
  | nil => rfl
  | cons d rest ih =>
    simp only [stripEnd]
    split
    · rfl
    · rename_i hcond
      simp only [stripEnd, ih]
      rw [if_neg (by simpa using hcond)]

/-- The head surviving `dropWhile p` never satisfies `p`. -/
theorem dropWhile_head_not (p : Char → Bool) (l : Str) :
    ∀ c, (l.dropWhile p).head? = some c → p c = false := by
  induction l with
  | nil => intro c hc; simp at hc
  | cons d rest ih =>
    intro c hc
    rw [List.dropWhile_cons] at hc
    split at hc
    · exact ih c hc
    · rename_i hd
      simp only [List.head?_cons, Option.some.injEq] at hc
      subst hc
      exact Bool.eq_false_iff.mpr hd

/-- Characters of `pyStrip l` are characters of `l`. -/
theorem pyStrip_mem (l : Str) : ∀ c ∈ pyStrip l, c ∈ l := by
  intro c hc
  exact (List.dropWhile_sublist pySpace).mem (stripEnd_mem _ c hc)

/-- The first character surviving `pyStrip` is never whitespace. -/
theorem pyStrip_head (l : Str) :
    ∀ c, (pyStrip l).head? = some c → pySpace c = false := by
  intro c hc
  rcases stripEnd_head? (l.dropWhile pySpace) with he | he
  · rw [pyStrip, he] at hc; simp at hc
  · exact dropWhile_head_not pySpace l c (by rw [← he]; exact hc)

/-- The last character surviving `pyStrip` is never whitespace. -/
theorem pyStrip_getLast (l : Str) :
    ∀ c, (pyStrip l).getLast? = some c → pySpace c = false :=
  fun c hc => stripEnd_getLast _ c hc

/-- Lemma: `dropWhile` preserves the no-two-adjacent-spaces shape. -/
theorem chain'_dropWhile (p : Char → Bool) (l : Str)
    (h : List.Chain' noTwoSpace l) :
    List.Chain' noTwoSpace (l.dropWhile p) := by
  induction l with
  | nil => exact List.chain'_nil
  | cons d rest ih =>
    rw [List.dropWhile_cons]
    split
    · exact ih (List.Chain'.tail h)
    · exact h

/-- Lemma: `pyStrip` preserves the no-two-adjacent-spaces shape. -/
theorem pyStrip_chain' (l : Str) (h : List.Chain' noTwoSpace l) :
    List.Chain' noTwoSpace (pyStrip l) :=
  stripEnd_chain' _ (chain'_dropWhile pySpace l h)

/-- Lemma: `pyStrip` is idempotent. -/
theorem pyStrip_idem (l : Str) : pyStrip (pyStrip l) = pyStrip l := by
  have hdw : (pyStrip l).dropWhile pySpace = pyStrip l := by
    cases hp : pyStrip l with
    | nil => rfl
    | cons c rest =>
      have hc : pySpace c = false := pyStrip_head l c (by rw [hp]; rfl)
      rw [List.dropWhile_cons, if_neg (by simp [hc])]
  rw [pyStrip, hdw]
  exact stripEnd_idem _

/-- Fixpoint: on input whose whitespace is single plain spaces not at the
front, the collapser is the identity (by strong induction on length). -/
theorem collapseAux_fix_len :
    ∀ n (m : Str), m.length ≤ n →
      (∀ c ∈ m, pySpace c = true → c = ' ') →
      List.Chain' noTwoSpace m →
      (∀ c, m.head? = some c → pySpace c = false) →
      HtmlText.collapseAux false m = m := by
  intro n
  induction n with
  | zero =>
    intro m hm _ _ _
    have : m = [] := List.eq_nil_of_length_eq_zero (by omega)
    subst this
    rfl
  | succ n ih =>
    intro m hm hsp hch hhd
    match m with
    | [] => rfl
    | c :: rest =>
      have hc : pySpace c = false := hhd c rfl
      simp only [HtmlText.collapseAux, hc, Bool.false_eq_true, if_false]
      congr 1
      match rest with
      | [] => rfl
      | d :: rest2 =>
        by_cases hd : pySpace d = true
        · have hd' : d = ' ' :=
            hsp d (List.mem_cons_of_mem c (List.mem_cons_self d rest2)) hd
          have hr2 : ∀ y, rest2.head? = some y → pySpace y = false := by
            intro y hy
            have hrel := (List.chain'_cons'.mp (List.Chain'.tail hch)).1 y hy
            by_contra hy'
            exact hrel ⟨hd, by simpa using hy'⟩
          simp only [HtmlText.collapseAux, hd, if_true]
          rw [if_neg (by simp)]
          rw [collapseAux_true_eq_false rest2 hr2]
          rw [ih rest2 (by simp only [List.length_cons] at hm ⊢; omega)
            (fun y hy => hsp y (List.mem_cons_of_mem c (List.mem_cons_of_mem d hy)))
            (List.Chain'.tail (List.Chain'.tail hch)) hr2]
          rw [hd']
        · exact ih (d :: rest2) (by simp only [List.length_cons] at hm ⊢; omega)
            (fun y hy => hsp y (List.mem_cons_of_mem c hy))
            (List.Chain'.tail hch)
            (fun y hy => by
              simp only [List.head?_cons, Option.some.injEq] at hy
              subst hy
              exact Bool.eq_false_iff.mpr hd)

/-- Claim C9 (confirmed, spec-modelled normalization): normalization —
collapsing whitespace runs into single spaces then trimming — is idempotent:
`normalize (normalize x) = normalize x` for every text `x`. -/
theorem C9_normalize_idempotent (x : Str) :
    HtmlText.normalize (HtmlText.normalize x) = HtmlText.normalize x := by
  unfold HtmlText.normalize
  rw [collapseAux_fix_len (pyStrip (HtmlText.collapseAux false x)).length _ (Nat.le_refl _)
    (fun c hc hsp => collapseAux_mem_space false x c (pyStrip_mem _ c hc) hsp)
    (pyStrip_chain' _ (collapseAux_chain' false x))
    (pyStrip_head _)]
  exact pyStrip_idem _

/-- Lemma: `linesAux` never returns an empty line list. -/
theorem linesAux_ne_nil (s : Str) : ∀ cur, linesAux cur s ≠ [] := by
  induction s with
  | nil => intro cur; simp [linesAux]
  | cons c rest ih =>
    intro cur
    simp only [linesAux]
    split
    · simp
    · exact ih (cur ++ [c])

/-- Text without carriage returns passes through CRLF normalization
unchanged. -/
theorem fixCRLF_of_no_cr (s : Str) (h : ∀ c ∈ s, c ≠ '\r') : fixCRLF s = s := by
  induction s with
  | nil => rfl
  | cons c rest ih =>
    have hc : c ≠ '\r' := h c (List.mem_cons_self c rest)
    simp only [fixCRLF]
    rw [if_neg (by simp [hc])]
    rw [ih (fun y hy => h y (List.mem_cons_of_mem c hy))]

/-- Re-joining the split lines with `"\n"` restores the input, provided every
line boundary in it is a plain `'\n'` and it does not end in one. -/
theorem joinWith_linesAux (s : Str) :
    ∀ cur, onlyNl s → s.getLast? ≠ some '\n' →
      joinWith (str "\n") (linesAux cur s) = cur ++ s := by
  induction s with
  | nil => intro cur _ _; simp [linesAux, joinWith]
  | cons c rest ih =>
    intro cur hnl hlast
    by_cases hb : lineBoundary c = true
    · have hc : c = '\n' := hnl c (List.mem_cons_self c rest) hb
      subst hc
      simp only [linesAux, hb, if_true]
      cases rest with
      | nil => simp at hlast
      | cons d rest2 =>
        rw [if_neg (by simp)]
        obtain ⟨q, qs, hq⟩ := List.exists_cons_of_ne_nil (linesAux_ne_nil (d :: rest2) [])
        rw [hq, joinWith]
        rw [← hq,
          ih [] (fun y hy hb2 => hnl y (List.mem_cons_of_mem _ hy) hb2)
            (by rwa [List.getLast?_cons_cons] at hlast)]
        simp [str]
    · simp only [linesAux, hb, Bool.false_eq_true, if_false]
      rw [ih (cur ++ [c]) (fun y hy hb2 => hnl y (List.mem_cons_of_mem _ hy) hb2)
        (by
          cases rest with
          | nil => simp
          | cons d rest2 => rwa [List.getLast?_cons_cons] at hlast)]
      simp

/-- The subject-scan loop falls through to `else` when no line matches. -/
theorem findSubjectLoop_none (ls : List Str)
    (h : ∀ l ∈ ls, startsWithSubject l = false) : findSubjectLoop ls = none := by
  induction ls with
  | nil => rfl
  | cons l rest ih =>
    simp only [findSubjectLoop, h l (List.mem_cons_self l rest), Bool.false_eq_true, if_false]
    exact ih (fun x hx => h x (List.mem_cons_of_mem l hx))

/-- The subject-scan loop stops at the first matching line, returning its
colon remainder and the lines strictly after it. -/
theorem findSubjectLoop_first (pre : List Str) (line : Str) (post : List Str)
    (hpre : ∀ l ∈ pre, startsWithSubject l = false)
    (hline : startsWithSubject line = true) :
    findSubjectLoop (pre ++ line :: post) = some (afterFirstColon line, post) := by
  induction pre with
  | nil => simp [findSubjectLoop, hline]
  | cons p rest ih =>
    simp only [List.cons_append, findSubjectLoop,
      hpre p (List.mem_cons_self p rest), Bool.false_eq_true, if_false]
    exact ih (fun x hx => hpre x (List.mem_cons_of_mem p hx))

/-- Marker-line branch of the splitter, phrased by position. -/
theorem split_subject_found (t : Str) (pre : List Str) (line : Str) (post : List Str)
    (hsplit : pySplitlines (pyStrip t) = pre ++ line :: post)
    (hpre : ∀ l ∈ pre, startsWithSubject l = false)
    (hline : startsWithSubject line = true) :
    split_subject_and_body t =
      (pyStrip (afterFirstColon line), pyStrip (joinWith (str "\n") post)) := by
  simp only [split_subject_and_body, hsplit, findSubjectLoop_first pre line post hpre hline]

/-- Fallback branch of the splitter. -/
theorem split_subject_none (t : Str)
    (h : ∀ l ∈ pySplitlines (pyStrip t), startsWithSubject l = false) :
    split_subject_and_body t =
      (defaultSubject, pyStrip (joinWith (str "\n") (pySplitlines (pyStrip t)))) := by
  simp only [split_subject_and_body, findSubjectLoop_none _ h]

/-- When every line break of the input is a plain `'\n'`, re-joining the
lines of the stripped input and stripping again gives the stripped input. -/
theorem joined_lines_eq_strip (t : Str) (hnl : onlyNl t) :
    pyStrip (joinWith (str "\n") (pySplitlines (pyStrip t))) = pyStrip t := by
  cases hs : pyStrip t with
  | nil => simp [pySplitlines, joinWith, pyStrip_nil]
  | cons c m =>
    have honly : onlyNl (c :: m) := by
      rw [← hs]
      exact fun y hy hb => hnl y (pyStrip_mem t y hy) hb
    have hlast : (c :: m).getLast? ≠ some '\n' := by
      rw [← hs]
      intro h
      have := pyStrip_getLast t '\n' h
      simp [pySpace] at this
    have hnocr : ∀ y ∈ (c :: m), y ≠ '\r' := by
      intro y hy hy'
      subst hy'
      exact absurd (honly '\r' hy (by decide)) (by decide)
    rw [show pySplitlines (c :: m) = linesAux [] (fixCRLF (c :: m)) from rfl,
      fixCRLF_of_no_cr (c :: m) hnocr,
      joinWith_linesAux (c :: m) [] honly hlast,
      List.nil_append, ← hs, pyStrip_idem]

/-- Counterexample to claim C2 as stated: on input `"a\rb"` no line begins with
the subject marker, yet the body is **not** the entire trimmed input: the
carriage return is a line boundary for `splitlines`, and re-joining uses
`"\n"`, so the body comes back as `"a\nb"`. -/
theorem C2_counterexample :
    (∀ l ∈ pySplitlines (pyStrip (str "a\rb")), startsWithSubject l = false) ∧
    split_subject_and_body (str "a\rb") ≠ (defaultSubject, pyStrip (str "a\rb")) := by
  constructor
  · decide
  · decide

/-- Claim C2 (corrected): the splitter satisfies the claimed contract with one
amendment — in the no-marker branch the body is the trimmed input's lines
re-joined with `"\n"` and trimmed, which equals the entire trimmed input
exactly when every line boundary of the input is a plain `'\n'`.  The
marker branch and the concrete example hold as claimed: if the lines of the
trimmed input decompose as `pre ++ line :: post` with no marker line in
`pre` and `line` matching case-insensitively, the subject is the trimmed
remainder of `line` after its first colon and the body is `post` re-joined
and trimmed. -/
theorem C2_split_subject_amended (t : Str) :
    (∀ pre line post,
        pySplitlines (pyStrip t) = pre ++ line :: post →
        (∀ l ∈ pre, startsWithSubject l = false) →
        startsWithSubject line = true →
        split_subject_and_body t =
          (pyStrip (afterFirstColon line), pyStrip (joinWith (str "\n") post))) ∧
    ((∀ l ∈ pySplitlines (pyStrip t), startsWithSubject l = false) →
        split_subject_and_body t =
          (defaultSubject, pyStrip (joinWith (str "\n") (pySplitlines (pyStrip t))))) ∧
    (onlyNl t →
      (∀ l ∈ pySplitlines (pyStrip t), startsWithSubject l = false) →
        split_subject_and_body t = (defaultSubject, pyStrip t)) ∧
    split_subject_and_body (str "Subject: Hello\nWorld\nBody2") =
      (str "Hello", str "World\nBody2") := by
  refine ⟨?_, ?_, ?_, ?_⟩
  · exact fun pre line post hsplit hpre hline =>
      split_subject_found t pre line post hsplit hpre hline
  · exact fun h => split_subject_none t h
  · intro hnl h
    rw [split_subject_none t h, joined_lines_eq_strip t hnl]
  · decide

/-- Witness for `C2_split_subject_amended`: both branches at concrete
inputs. -/
theorem C2_split_subject_amended_witness :
    split_subject_and_body (str "Subject: Hi\nBody here") =
      (pyStrip (afterFirstColon (str "Subject: Hi")),
       pyStrip (joinWith (str "\n") [str "Body here"])) ∧
    split_subject_and_body (str "no marker\njust text") =
      (defaultSubject, pyStrip (str "no marker\njust text")) :=
  ⟨(C2_split_subject_amended (str "Subject: Hi\nBody here")).1
      [] (str "Subject: Hi") [str "Body here"] (by decide) (by decide) (by decide),
   (C2_split_subject_amended (str "no marker\njust text")).2.2.1
      (by decide) (by decide)⟩
